import Mathlib

/-!
Shallow embedding of `AppManager/app_manager_server.py` (the Application
Instance Manager): constants, the monit `unmonitor` retry loop, the
`wait_on_app` health probe, `add_routing`, `clean_old_sources`, the
start/stop lifecycle operations and the command/environment builders.
Stateful code is modelled by explicit state passing plus event traces;
external collaborator outcomes (HTTP responses, file-system successes)
are passed in as explicit lists or flags.
-/

namespace AppManager

/-! ### Constants from the source -/

/-- `START_APP_TIMEOUT = 180` -/
def START_APP_TIMEOUT : Nat := 180

/-- `BACKOFF_TIME = 1` -/
def BACKOFF_TIME : Nat := 1

/-- `HTTP_OK = 200` -/
def HTTP_OK : Nat := 200

/-- `ROUTING_RETRY_INTERVAL = 5` -/
def ROUTING_RETRY_INTERVAL : Nat := 5

/-- `TRUSTED_APPS = ["appscaledashboard"]` -/
def TRUSTED_APPS : List String := ["appscaledashboard"]

/-- `TRUSTED_FLAG = "--trusted"` -/
def TRUSTED_FLAG : String := "--trusted"

/-- `PHP_CGI_LOCATION = "/usr/bin/php-cgi"` -/
def PHP_CGI_LOCATION : String := "/usr/bin/php-cgi"

/-- `MONIT_INSTANCE_PREFIX` (imported constant; its value `app___` is fixed by
the source's `PIDFILE_TEMPLATE = 'app___{project}-{port}.pid'` and by the spec's
entry-name format `app___<projectId>-<port>`). -/
def MONIT_INSTANCE_PREFIX : String := "app___"

/-- `MONIT_CONFIG_DIR` (imported constant; directory holding supervisor config
files `appscale-<entry>.cfg`). The claims do not depend on its value. -/
def MONIT_CONFIG_DIR : String := "/etc/monit/conf.d"

/-- `LOGROTATE_CONFIG_DIR` (imported constant; the spec's `LOGROTATE_DIR`).
The claims do not depend on its value. -/
def LOGROTATE_CONFIG_DIR : String := "/etc/logrotate.d"

/-- `VERSION_PATH_SEPARATOR` (imported constant joining
`projectId, serviceId, versionId, revision` into a revision key). The claims
do not depend on its value. -/
def VERSION_PATH_SEPARATOR : String := "_"

/-- `UNPACK_ROOT` (imported constant; root of unpacked revision trees). -/
def UNPACK_ROOT : String := "/var/apps/"

/-- `constants.APPSCALE_HOME` (imported constant). -/
def APPSCALE_HOME : String := "/root/appscale"

/-- `constants.UA_SERVER_PORT` (imported constant; the spec's `uaPort`).
The claims do not depend on its value. -/
def UA_SERVER_PORT : Nat := 4342

/-- `constants.DB_SERVER_PORT` (imported constant; the spec's `dbPort`).
The claims do not depend on its value. -/
def DB_SERVER_PORT : Nat := 8888

/-- `HTTPCodes.BAD_REQUEST` -/
def BAD_REQUEST : Nat := 400

/-- `HTTPCodes.INTERNAL_ERROR` -/
def INTERNAL_ERROR : Nat := 500

/-- HTTP 200 returned by tornado on a handler that completes without error. -/
def HTTP_SUCCESS : Nat := 200

/-- Python `s.startswith(pre)`, computed on the character list. -/
def str_startswith (s pre : String) : Bool :=
  pre.data.isPrefixOf s.data

/-- Python `s.endswith(suf)`, computed on the character list. -/
def str_endswith (s suf : String) : Bool :=
  suf.data.isSuffixOf s.data

/-- Modelled from the spec: `misc.is_app_name_valid` lives in
`appscale.common.misc`, which is not under `src/`; the spec states that a
ProjectId is "validated against the pattern `[a-z0-9-]+`". -/
def is_app_name_valid (s : String) : Bool :=
  s.data.length > 0 &&
    s.data.all (fun c => ('a' ≤ c && c ≤ 'z') || ('0' ≤ c && c ≤ '9') || c = '-')

/-! ### `unmonitor` (supervisor unmonitor with 503 retry) -/

/-- Outcome of one `client.fetch(process_url, method='POST', ...)` attempt:
either the POST succeeds or it raises `HTTPError(code)`. -/
inductive FetchOutcome
  | ok
  | err (code : Nat)
  deriving DecidableEq, Repr

/-- Result of `unmonitor`: normal return, `ProcessNotFound` (the 404 case), or
the `HTTPError` re-raised to the caller. -/
inductive UnmonitorResult
  | ok
  | processNotFound
  | httpError (code : Nat)
  deriving DecidableEq, Repr

/-- `unmonitor(process_name, retries=5)`: each list element is the outcome of
one fetch attempt. On 404 raise `ProcessNotFound`; on 503 decrement `retries`
and recurse unless the budget is exhausted (Python's `retries -= 1; if
retries < 0: raise` reaches the raise exactly when it is entered with
`retries == 0`); any other error is re-raised. An empty outcome list models a
run whose next attempt succeeds. -/
def unmonitor : List FetchOutcome → Nat → UnmonitorResult
  | [], _ => .ok
  | .ok :: _, _ => .ok
  | .err 404 :: _, _ => .processNotFound
  | .err 503 :: rest, retries =>
      match retries with
      | 0 => .httpError 503
      | r + 1 => unmonitor rest r
  | .err c :: _, _ => .httpError c

/-! ### `wait_on_app` (health probe) -/

/-- Outcome of one probe attempt `opener.open(url)`: an HTTP response with a
status code (the `NoRedirection` opener replaces `urllib2`'s default
`HTTPErrorProcessor`, so every response — redirect or error status alike — is
returned rather than raised), or an `IOError`. -/
inductive ProbeOutcome
  | response (code : Nat)
  | ioError
  deriving DecidableEq, Repr

/-- The `while retries > 0` loop of `wait_on_app`: any HTTP response returns
`True` (a non-200 code is merely logged); an `IOError` consumes one retry.
An exhausted outcome list models no further responses arriving. -/
def wait_on_app_loop : List ProbeOutcome → Nat → Bool
  | _, 0 => false
  | [], _ + 1 => false
  | .response _ :: _, _ + 1 => true
  | .ioError :: rest, r + 1 => wait_on_app_loop rest r

/-- `wait_on_app(port)` with the sequence of probe outcomes made explicit;
`retries = math.ceil(START_APP_TIMEOUT / BACKOFF_TIME)`. -/
def wait_on_app (outcomes : List ProbeOutcome) : Bool :=
  wait_on_app_loop outcomes ((START_APP_TIMEOUT + BACKOFF_TIME - 1) / BACKOFF_TIME)

/-! ### `add_routing` (health probe then routing registration) -/

/-- Result of one `acc.add_routing_for_appserver(app, private_ip, port)` call:
`AppControllerClient.NOT_READY` or anything else. -/
inductive AccResult
  | notReady
  | other (r : String)
  deriving DecidableEq, Repr

/-- Observable events of the `add_routing` background task: a routing
registration call with its arguments, or a `time.sleep` of a given number of
seconds. -/
inductive RoutingEvent
  | register (app : String) (ip : String) (port : Nat)
  | sleep (seconds : Nat)
  deriving DecidableEq, Repr

/-- The `while True` registration loop of `add_routing`: each list element is
the result of one `add_routing_for_appserver` call; `NOT_READY` is followed by
`time.sleep(ROUTING_RETRY_INTERVAL)` and another call, anything else breaks.
The event trace for a finite all-`NOT_READY` prefix is the trace of a loop
still running. -/
def add_routing_loop (app ip : String) (port : Nat) : List AccResult → List RoutingEvent
  | [] => []
  | .notReady :: rest =>
      .register app ip port :: .sleep ROUTING_RETRY_INTERVAL ::
        add_routing_loop app ip port rest
  | .other _ :: _ => [.register app ip port]

/-- `add_routing(app, port)`: probe via `wait_on_app`; on failure log and
return without touching the routing controller; on success run the
registration loop. -/
def add_routing (app ip : String) (port : Nat)
    (probe : List ProbeOutcome) (acc : List AccResult) : List RoutingEvent :=
  if wait_on_app probe then add_routing_loop app ip port acc else []

/-! ### `clean_old_sources` (RevisionGC) -/

/-- Nested read-only projects-manager state:
`projectId → serviceId → versionId → revision` (the `revision` field of each
`version_details`). -/
abbrev ProjectsManager := List (String × List (String × List (String × Nat)))

/-- `entry[len(MONIT_INSTANCE_PREFIX):].rsplit('-', 1)[0]`: drop the prefix,
then keep everything before the last `-` (the whole remainder when it has no
`-`), computed on the character list. -/
def strip_monit_entry (entry : String) : String :=
  let s := entry.data.drop MONIT_INSTANCE_PREFIX.data.length
  if '-' ∈ s then
    String.mk ((s.reverse.dropWhile (fun c => c ≠ '-')).drop 1).reverse
  else
    String.mk s

/-- The revision key `VERSION_PATH_SEPARATOR.flatten([project_id, service_id,
version_id, str(revision_id)])`. -/
def revision_key (project_id service_id version_id : String) (revision : Nat) : String :=
  String.intercalate VERSION_PATH_SEPARATOR
    [project_id, service_id, version_id, toString revision]

/-- The flattened walk `project → service → version` of `clean_old_sources`,
producing one revision key per version record. -/
def projects_revision_keys (pm : ProjectsManager) : List String :=
  pm.flatMap fun p =>
    p.2.flatMap fun s =>
      s.2.map fun v => revision_key p.1 s.1 v.1 v.2

/-- The `active_revisions` set built by `clean_old_sources` (modelled as a
list with set semantics): stripped names of monit entries starting with
`MONIT_INSTANCE_PREFIX`, together with every revision key drawn from the
projects manager. -/
def clean_old_sources_active (monit_entries : List String) (pm : ProjectsManager) :
    List String :=
  (monit_entries.filter (str_startswith · MONIT_INSTANCE_PREFIX)).map strip_monit_entry
    ++ projects_revision_keys pm

/-- `clean_old_sources()`: the set finally passed to
`source_manager.clean_old_revisions(active_revisions=...)`. -/
def clean_old_sources (monit_entries : List String) (pm : ProjectsManager) :
    List String :=
  clean_old_sources_active monit_entries pm

/-! ### Node state and stop operations -/

/-- On-disk state the AppManager mutates: the set of supervisor (monit) config
files and the set of logrotate config files, each as a list of present paths. -/
structure NodeState where
  monitConfigs : List String
  logrotateConfigs : List String
  deriving DecidableEq, Repr

/-- The supervisor config path `'{}/appscale-{}.cfg'.format(MONIT_CONFIG_DIR,
watch)`. -/
def monit_config_path (watch : String) : String :=
  MONIT_CONFIG_DIR ++ "/appscale-" ++ watch ++ ".cfg"

/-- The logrotate script path `"{0}/appscale-{1}".format(LOGROTATE_CONFIG_DIR,
app_name)`. -/
def logrotate_path (app_name : String) : String :=
  LOGROTATE_CONFIG_DIR ++ "/appscale-" ++ app_name

/-- Observable side effects of the stop operations. -/
inductive StopEvent
  | unmonitorCall (watch : String)
  | monitStopGroup (watch : String)
  | removeConfig (path : String)
  | monitReload
  | gcRun (active : List String)
  | killSpawned (watch : String) (pid : Nat)
  | logrotateRemove (app : String)
  deriving DecidableEq, Repr

/-- How a stop operation ends: `BadConfigurationException`, a tornado
`HTTPError(code)`, or a normal return. -/
inductive StopResult
  | badConfiguration
  | httpError (code : Nat)
  | ok
  deriving DecidableEq, Repr

/-- Outcome record of a stop operation: how it returned, the resulting node
state, and the trace of side effects in order. -/
structure StopOutcome where
  result : StopResult
  state : NodeState
  events : List StopEvent
  deriving DecidableEq, Repr

/-- `remove_logrotate(app_name)`: `os.remove` succeeds exactly when the file
is present; an `OSError` is logged and `False` returned. -/
def remove_logrotate (app_name : String) (st : NodeState) : Bool × NodeState :=
  let path := logrotate_path app_name
  if path ∈ st.logrotateConfigs then
    (true, { st with logrotateConfigs := st.logrotateConfigs.erase path })
  else
    (false, st)

/-- `stop_app_instance(app_name, port)`. Inputs besides the arguments: the
result of reading the PID file (`none` models the `IOError` branch), the fetch
outcomes consumed by `unmonitor`, the monit entry list and projects-manager
snapshot read by `clean_old_sources`, and the starting node state. -/
def stop_app_instance (app_name : String) (port : Nat)
    (pidRead : Option Nat) (unmonitorOutcomes : List FetchOutcome)
    (monit_entries : List String) (pm : ProjectsManager)
    (st : NodeState) : StopOutcome :=
  if ¬ is_app_name_valid app_name then
    ⟨.badConfiguration, st, []⟩
  else
    match pidRead with
    | none => ⟨.httpError INTERNAL_ERROR, st, []⟩
    | some instance_pid =>
      let watch := MONIT_INSTANCE_PREFIX ++ app_name ++ "-" ++ toString port
      match unmonitor unmonitorOutcomes 5 with
      | .processNotFound =>
          -- `raise gen.Return()`: already stopped, return success immediately.
          ⟨.ok, st, [.unmonitorCall watch]⟩
      | .httpError code =>
          ⟨.httpError code, st, [.unmonitorCall watch]⟩
      | .ok =>
          let cfg := monit_config_path watch
          -- `os.remove` failure (file absent) is logged and execution continues.
          let st' := { st with monitConfigs := st.monitConfigs.erase cfg }
          let active := clean_old_sources monit_entries pm
          ⟨.ok, st',
            [.unmonitorCall watch, .removeConfig cfg, .monitReload,
             .gcRun active, .killSpawned watch instance_pid]⟩

/-- Paths matched by the glob
`'{}/appscale-{}-*.cfg'.format(MONIT_CONFIG_DIR, watch)`. -/
def matches_config_glob (watch : String) (path : String) : Bool :=
  str_startswith path (MONIT_CONFIG_DIR ++ "/appscale-" ++ watch ++ "-")
    && str_endswith path ".cfg"

/-- `stop_app(app_name)` (stop all instances of a project). `monitStopOk` is
the boolean returned by `monit_interface.stop(watch)`. -/
def stop_app (app_name : String) (monitStopOk : Bool)
    (monit_entries : List String) (pm : ProjectsManager)
    (st : NodeState) : StopOutcome :=
  if ¬ is_app_name_valid app_name then
    ⟨.badConfiguration, st, []⟩
  else
    let watch := MONIT_INSTANCE_PREFIX ++ app_name
    if ¬ monitStopOk then
      ⟨.httpError INTERNAL_ERROR, st, [.monitStopGroup watch]⟩
    else
      let config_files := st.monitConfigs.filter (matches_config_glob watch)
      let st' := { st with
        monitConfigs := st.monitConfigs.filter (fun p => ¬ matches_config_glob watch p) }
      let (_, st'') := remove_logrotate app_name st'
      let active := clean_old_sources monit_entries pm
      ⟨.ok, st'',
        .monitStopGroup watch :: config_files.map .removeConfig
          ++ [.logrotateRemove app_name, .gcRun active]⟩

/-- `InstanceHandler.delete`: runs `stop_app_instance` and maps
`BadConfigurationException` to HTTP 400; a tornado `HTTPError` raised inside
keeps its code; normal completion is HTTP 200. Returns the HTTP status. -/
def instance_handler_delete (project_id : String) (port : Nat)
    (pidRead : Option Nat) (unmonitorOutcomes : List FetchOutcome)
    (monit_entries : List String) (pm : ProjectsManager)
    (st : NodeState) : Nat × StopOutcome :=
  let out := stop_app_instance project_id port pidRead unmonitorOutcomes
    monit_entries pm st
  match out.result with
  | .badConfiguration => (BAD_REQUEST, out)
  | .httpError code => (code, out)
  | .ok => (HTTP_SUCCESS, out)

/-- `AppHandler.delete`: runs `stop_app` and maps `BadConfigurationException`
to HTTP 400; normal completion is HTTP 200. Returns the HTTP status. -/
def app_handler_delete (project_id : String) (monitStopOk : Bool)
    (monit_entries : List String) (pm : ProjectsManager)
    (st : NodeState) : Nat × StopOutcome :=
  let out := stop_app project_id monitStopOk monit_entries pm st
  match out.result with
  | .badConfiguration => (BAD_REQUEST, out)
  | .httpError code => (code, out)
  | .ok => (HTTP_SUCCESS, out)

/-! ### Options and command builders -/

/-- The tornado `options` defined at bootstrap. -/
structure Options where
  private_ip : String
  login_ip : String
  syslog_server : String
  db_proxy : String
  tq_proxy : String
  deriving DecidableEq, Repr

/-- `constants.JAVA_APPSERVER` (imported constant). -/
def JAVA_APPSERVER : String := "/root/appscale/AppServer_Java"

/-- `DEFAULT_MAX_MEMORY` (imported constant, MB). The claims depend only on
its comparison with 250. -/
def DEFAULT_MAX_MEMORY : Nat := 400

/-- `PIDFILE_TEMPLATE.format(project=project_id, port=port)`. -/
def pidfile_path (project : String) (port : Nat) : String :=
  "/var/run/appscale/app___" ++ project ++ "-" ++ toString port ++ ".pid"

/-- The token list `cmd` built by `create_python27_start_cmd` before
`' '.flatten`, in the source's order, with `TRUSTED_FLAG` extended onto the end
exactly when `app_name in TRUSTED_APPS`. -/
def create_python27_start_cmd_args (opts : Options) (app_name login_ip : String)
    (port : Nat) (pidfile revision_key : String) : List String :=
  let source_directory := UNPACK_ROOT ++ "/" ++ revision_key ++ "/app"
  let cmd := [
    "/usr/bin/python2",
    APPSCALE_HOME ++ "/AppServer/dev_appserver.py",
    "--port " ++ toString port,
    "--admin_port " ++ toString (port + 10000),
    "--login_server " ++ login_ip,
    "--skip_sdk_update_check",
    "--nginx_host " ++ login_ip,
    "--require_indexes",
    "--enable_sendmail",
    "--xmpp_path " ++ login_ip,
    "--php_executable_path=" ++ PHP_CGI_LOCATION,
    "--uaserver_path " ++ opts.db_proxy ++ ":" ++ toString UA_SERVER_PORT,
    "--datastore_path " ++ opts.db_proxy ++ ":" ++ toString DB_SERVER_PORT,
    source_directory,
    "--host " ++ opts.private_ip,
    "--admin_host " ++ opts.private_ip,
    "--automatic_restart", "no",
    "--pidfile", pidfile]
  if app_name ∈ TRUSTED_APPS then cmd ++ [TRUSTED_FLAG] else cmd

/-- `create_python27_start_cmd(app_name, login_ip, port, pidfile,
revision_key)`: the joined start command string. -/
def create_python27_start_cmd (opts : Options) (app_name login_ip : String)
    (port : Nat) (pidfile revision_key : String) : String :=
  String.intercalate " "
    (create_python27_start_cmd_args opts app_name login_ip port pidfile revision_key)

/-- `os.path.dirname`: the path up to (excluding) the last `/` component,
computed on the character list. -/
def os_path_dirname (s : String) : String :=
  if '/' ∈ s.data then
    let d := String.mk ((s.data.reverse.dropWhile (fun c => c ≠ '/')).drop 1).reverse
    if d = "" then "/" else d
  else ""

/-- `create_java_start_cmd(app_name, port, load_balancer_host, max_heap,
pidfile, revision_key)`. The imported filesystem walk `find_web_inf` is
abstracted as a function parameter. -/
def create_java_start_cmd (opts : Options) (app_name : String) (port : Nat)
    (load_balancer_host : String) (max_heap : Int)
    (pidfile revision_key : String) (find_web_inf : String → String) : String :=
  let java_start_script :=
    JAVA_APPSERVER ++ "/appengine-java-sdk-repacked/bin/dev_appserver.sh"
  let revision_base := UNPACK_ROOT ++ "/" ++ revision_key
  let web_inf_directory := find_web_inf revision_base
  let cmd := [
    java_start_script,
    "--port=" ++ toString port,
    "--jvm_flag=-Dsocket.permit_connect=true",
    "--jvm_flag=-Xmx" ++ toString max_heap ++ "m",
    "--jvm_flag=-Djava.security.egd=file:/dev/./urandom",
    "--disable_update_check",
    "--address=" ++ opts.private_ip,
    "--datastore_path=" ++ opts.db_proxy,
    "--login_server=" ++ load_balancer_host,
    "--appscale_version=1",
    "--APP_NAME=" ++ app_name,
    "--NGINX_ADDRESS=" ++ load_balancer_host,
    "--TQ_PROXY=" ++ opts.tq_proxy,
    "--pidfile=" ++ pidfile,
    os_path_dirname web_inf_directory]
  String.intercalate " " cmd

/-! ### Environment maps and the Java environment -/

/-- A Python dict of environment variables, modelled extensionally. -/
def Env := String → Option String

/-- `d[k] = v`. -/
def env_set (m : Env) (k v : String) : Env :=
  fun k' => if k' = k then some v else m k'

/-- An XML element as seen through `xml.etree.ElementTree`: tag, attribute
dict, child elements. -/
inductive XmlElement
  | mk (tag : String) (attrib : List (String × String)) (children : List XmlElement)

/-- The element's tag. -/
def XmlElement.tag : XmlElement → String
  | .mk t _ _ => t

/-- The element's attribute dict. -/
def XmlElement.attrib : XmlElement → List (String × String)
  | .mk _ a _ => a

/-- The element's children. -/
def XmlElement.children : XmlElement → List XmlElement
  | .mk _ _ c => c

/-- One iteration of the inner `for env_var in child` loop of
`extract_env_vars_from_xml`: `custom_vars[var_dict['name']] =
var_dict['value']`; a missing attribute is Python's `KeyError`. -/
def xml_env_var_step (m : Env) (env_var : XmlElement) : Except String Env :=
  match env_var.attrib.lookup "name", env_var.attrib.lookup "value" with
  | some n, some v => Except.ok (env_set m n v)
  | _, _ => Except.error "KeyError"

/-- One iteration of the outer `for child in root` loop of
`extract_env_vars_from_xml`: children whose tag does not end with
`env-variables` are skipped. -/
def xml_child_step (m : Env) (child : XmlElement) : Except String Env :=
  if str_endswith child.tag "env-variables" then
    child.children.foldlM xml_env_var_step m
  else Except.ok m

/-- `extract_env_vars_from_xml(xml_file)` over the parsed root element. -/
def extract_env_vars_from_xml (root : XmlElement) : Except String Env :=
  root.children.foldlM xml_child_step (fun _ => none)

/-- The `gcs_config` dict of `create_java_app_env`: defaults
`{'scheme': 'https', 'port': 443}` updated with
`deployment_config.get_config('gcs')` when that is accessible. -/
def java_gcs_config (gcs_fetch : Option (List (String × String))) : Env :=
  let gcs_defaults : Env := fun k =>
    if k = "scheme" then some "https" else if k = "port" then some "443" else none
  match gcs_fetch with
  | some kvs => kvs.foldl (fun m kv => env_set m kv.1 kv.2) gcs_defaults
  | none => gcs_defaults

/-- `create_java_app_env(app_name)`. `root` is the parsed
`appengine-web.xml` located by `find_web_xml`; `gcs_fetch` is the result of
`deployment_config.get_config('gcs')` (`none` models `ConfigInaccessible`,
which is logged and leaves the defaults in place). -/
def create_java_app_env (root : XmlElement)
    (gcs_fetch : Option (List (String × String))) : Except String Env := do
  let env_vars : Env := fun k => if k = "APPSCALE_HOME" then some APPSCALE_HOME else none
  let custom_env_vars ← extract_env_vars_from_xml root
  let env_vars : Env := fun k =>
    match custom_env_vars k with
    | some v => some v
    | none => env_vars k
  let gcs_config : Env := java_gcs_config gcs_fetch
  match gcs_config "host" with
  | some host =>
      let url := (gcs_config "scheme").getD "" ++ "://" ++ host ++ ":"
        ++ (gcs_config "port").getD ""
      pure (env_set env_vars "GCS_HOST" url)
  | none => pure env_vars

/-! ### `start_app` -/

/-- The runtimes known to the AppManager (`constants.PYTHON27` etc.). -/
inductive Runtime
  | python27
  | go
  | php
  | java
  | other (s : String)
  deriving DecidableEq, Repr

/-- The `version_details` snapshot read from the projects manager. -/
structure VersionDetails where
  runtime : Runtime
  revision : Nat
  sourceUrl : String
  instanceClass : Option String
  deriving DecidableEq, Repr

/-- The JSON request body of a start: a field is `none` when the key is
absent from the payload. -/
structure StartConfig where
  app_port : Option Nat
  service_id : Option String
  version_id : Option String
  env_vars : Option (List (String × String))
  deriving DecidableEq, Repr

/-- `max_memory` as computed by `start_app`:
`runtime_params.get('max_memory', DEFAULT_MAX_MEMORY)` then, when the version
has an `instanceClass`, `INSTANCE_CLASSES.get(instanceClass, max_memory)`.
The imported `INSTANCE_CLASSES` table is a parameter. -/
def effective_max_memory (runtime_params instance_classes : List (String × Nat))
    (vd : VersionDetails) : Nat :=
  let max_memory := ((runtime_params.lookup "max_memory").getD DEFAULT_MAX_MEMORY)
  match vd.instanceClass with
  | some ic => (instance_classes.lookup ic).getD max_memory
  | none => max_memory

/-- Observable side effects of `start_app`, in request order. -/
inductive StartEvent
  | ensureSource (revision_key source_archive : String)
  | configWrite (watch : String) (start_cmd : String) (port : Nat) (max_memory : Nat)
  | monitStart (full_watch : String)
  | routingSpawn (project : String) (port : Nat)
  | logrotateWrite (app : String)
  deriving DecidableEq, Repr

/-- How `start_app` ends: `BadConfigurationException` (HTTP 400 via
`AppHandler.post`), the `assert` on `monit_interface.start` failing, an
uncaught `IOError` from `setup_logrotate`'s file write, or a normal return. -/
inductive StartResult
  | badConfiguration (msg : String)
  | assertionError
  | ioError
  | ok
  deriving DecidableEq, Repr

/-- `setup_logrotate(app_name, watch, log_size)`: writes the rotation script
with `open(..., 'w')` and returns `True`; there is no `except` around the
write, so a failing write raises `IOError` out of the function (it can never
return `False`). `writeOk` is whether the write succeeds. -/
def setup_logrotate (app_name : String) (writeOk : Bool) : Except String Bool :=
  if writeOk then Except.ok true else Except.error (logrotate_path app_name)

/-- `start_app(project_id, config)`. External inputs: the projects-manager
lookup result for `(project_id, service_id, version_id)`, the deployment
`runtime_params` and `INSTANCE_CLASSES` tables, the abstracted
`find_web_inf`, the boolean returned by `monit_interface.start`, and whether
the logrotate config write succeeds. Environment-variable derivation
(`create_python_app_env` / `create_java_app_env`) does not influence control
flow or any event and is modelled separately. Returns the result together
with the ordered event trace. -/
def start_app (opts : Options) (project_id : String) (config : StartConfig)
    (lookup : Option VersionDetails)
    (runtime_params instance_classes : List (String × Nat))
    (find_web_inf : String → String)
    (monitStartOk : Bool) (logrotateWriteOk : Bool) :
    StartResult × List StartEvent :=
  match config.app_port, config.service_id, config.version_id, config.env_vars with
  | none, _, _, _ => (.badConfiguration "Missing parameter: app_port", [])
  | _, none, _, _ => (.badConfiguration "Missing parameter: service_id", [])
  | _, _, none, _ => (.badConfiguration "Missing parameter: version_id", [])
  | _, _, _, none => (.badConfiguration "Missing parameter: env_vars", [])
  | some app_port, some service_id, some version_id, some _ =>
    if ¬ is_app_name_valid project_id then
      (.badConfiguration ("Invalid project ID: " ++ project_id), [])
    else
      match lookup with
      | none => (.badConfiguration "Version not found", [])
      | some version_details =>
        let runtime := version_details.runtime
        let max_memory := effective_max_memory runtime_params instance_classes
          version_details
        let rev_key := revision_key project_id service_id version_id
          version_details.revision
        let ensure := StartEvent.ensureSource rev_key version_details.sourceUrl
        let pidfile := pidfile_path project_id app_port
        let watch := MONIT_INSTANCE_PREFIX ++ project_id
        let built : Except String String :=
          match runtime with
          | .python27 | .go | .php =>
              Except.ok (create_python27_start_cmd opts project_id opts.login_ip
                app_port pidfile rev_key)
          | .java =>
              let max_heap : Int := (max_memory : Int) - 250
              if max_heap ≤ 0 then
                Except.error "Memory for Java applications must be greater than 250MB"
              else
                Except.ok (create_java_start_cmd opts project_id app_port
                  opts.login_ip max_heap pidfile rev_key find_web_inf)
          | .other s =>
              Except.error ("Unknown runtime " ++ s ++ " for " ++ project_id)
        match built with
        | .error msg => (.badConfiguration msg, [ensure])
        | .ok start_cmd =>
          let full_watch := watch ++ "-" ++ toString app_port
          let events := [ensure,
            .configWrite watch start_cmd app_port max_memory,
            .monitStart full_watch]
          if ¬ monitStartOk then
            (.assertionError, events)
          else
            let events := events ++ [.routingSpawn project_id app_port]
            match setup_logrotate project_id logrotateWriteOk with
            | .error _ => (.ioError, events)
            | .ok _ => (.ok, events ++ [.logrotateWrite project_id])

/-- `AppHandler.post`: runs `start_app`, maps `BadConfigurationException` to
HTTP 400, a normal return to HTTP 200; an uncaught exception (the `assert`
failure, or the `IOError` escaping `setup_logrotate`) becomes tornado's
HTTP 500. Returns the HTTP status and the events. -/
def app_handler_post (opts : Options) (project_id : String) (config : StartConfig)
    (lookup : Option VersionDetails)
    (runtime_params instance_classes : List (String × Nat))
    (find_web_inf : String → String)
    (monitStartOk : Bool) (logrotateWriteOk : Bool) : Nat × List StartEvent :=
  let (res, events) := start_app opts project_id config lookup runtime_params
    instance_classes find_web_inf monitStartOk logrotateWriteOk
  match res with
  | .badConfiguration _ => (BAD_REQUEST, events)
  | .assertionError => (INTERNAL_ERROR, events)
  | .ioError => (INTERNAL_ERROR, events)
  | .ok => (HTTP_SUCCESS, events)

/-! ### Helper predicates used in claim statements -/

/-- Whether a probe outcome is an HTTP response with a 2xx or 3xx status. -/
def probe_2xx3xx : ProbeOutcome → Bool
  | .response c => 200 ≤ c && c < 400
  | .ioError => false

/-- Whether a probe outcome is an HTTP response at all. -/
def is_http_response : ProbeOutcome → Bool
  | .response _ => true
  | .ioError => false

/-! ### Theorems about `wait_on_app` (claim C2) -/

theorem wait_on_app_loop_true_iff (outcomes : List ProbeOutcome) (n : Nat) :
    wait_on_app_loop outcomes n = true ↔
      ∃ o ∈ outcomes.take n, is_http_response o = true := by
  induction outcomes generalizing n with
  | nil =>
      cases n <;> simp [wait_on_app_loop]
  | cons o rest ih =>
      cases n with
      | zero => simp [wait_on_app_loop]
      | succ m =>
          cases o with
          | response c => simp [wait_on_app_loop, is_http_response]
          | ioError => simp [wait_on_app_loop, is_http_response, ih]

/-- C2 (counterexample): `wait_on_app` returns `true` on a single probe
outcome that is an HTTP response with status 500 — an outcome on which the
claim's "2xx-or-3xx" characterisation demands `false`. The `NoRedirection`
opener replaces `urllib2`'s error processor, so error statuses are returned,
not raised, and any response at all yields `True`. -/
theorem wait_on_app_500_counterexample :
    wait_on_app [ProbeOutcome.response 500] = true ∧
      ¬ ∃ o ∈ ([ProbeOutcome.response 500].take 180), probe_2xx3xx o = true := by
  decide

/-- C2 (amended): `wait_on_app` returns `true` iff some attempt within the
budget of `ceil(START_APP_TIMEOUT / BACKOFF_TIME) = 180` yields an HTTP
response of any status (redirects are not followed and error statuses are not
raised, so every response counts as success); it returns `false` once 180
attempts have all failed with I/O errors; as a total function it never
raises. -/
theorem wait_on_app_true_iff_any_response (outcomes : List ProbeOutcome) :
    (wait_on_app outcomes = true ↔
        ∃ o ∈ outcomes.take 180, is_http_response o = true) ∧
      ((∀ o ∈ outcomes.take 180, o = ProbeOutcome.ioError) →
        wait_on_app outcomes = false) := by
  have budget : (START_APP_TIMEOUT + BACKOFF_TIME - 1) / BACKOFF_TIME = 180 := by
    decide
  constructor
  · rw [wait_on_app, budget]
    exact wait_on_app_loop_true_iff outcomes 180
  · intro h
    rw [wait_on_app, budget]
    rw [Bool.eq_false_iff]
    intro htrue
    obtain ⟨o, ho, hresp⟩ := (wait_on_app_loop_true_iff outcomes 180).mp htrue
    rw [h o ho] at hresp
    simp [is_http_response] at hresp

/-- Witness for C2's amended theorem at concrete inputs. -/
theorem wait_on_app_true_iff_any_response_witness :
    wait_on_app [ProbeOutcome.ioError, ProbeOutcome.ioError] = false :=
  (wait_on_app_true_iff_any_response
    [ProbeOutcome.ioError, ProbeOutcome.ioError]).2 (by decide)

/-! ### Theorems about `unmonitor` (claim C7) -/

theorem unmonitor_all_503_then_ok (pre suf : List FetchOutcome) (retries : Nat)
    (hlen : pre.length ≤ retries) (h503 : ∀ x ∈ pre, x = FetchOutcome.err 503) :
    unmonitor (pre ++ FetchOutcome.ok :: suf) retries = UnmonitorResult.ok := by
  induction pre generalizing retries with
  | nil => simp [unmonitor]
  | cons x rest ih =>
      have hx : x = FetchOutcome.err 503 := h503 x (by simp)
      subst hx
      cases retries with
      | zero => simp at hlen
      | succ r =>
          show unmonitor (FetchOutcome.err 503 :: (rest ++ FetchOutcome.ok :: suf))
            (r + 1) = UnmonitorResult.ok
          rw [show unmonitor (FetchOutcome.err 503 :: (rest ++ FetchOutcome.ok :: suf))
              (r + 1) = unmonitor (rest ++ FetchOutcome.ok :: suf) r from rfl]
          exact ih r (by simpa using Nat.le_of_succ_le_succ hlen)
            (fun y hy => h503 y (List.mem_cons_of_mem _ hy))

/-- C7: a 503 from the supervisor's unmonitor endpoint is retried up to 5
times (at most 6 attempts in total): any run whose attempts are at most five
503s followed by a success returns normally; six consecutive 503s surface the
error; in particular four 503s followed by a success succeeds. -/
theorem unmonitor_retry_budget :
    (∀ pre suf : List FetchOutcome, pre.length ≤ 5 →
        (∀ x ∈ pre, x = FetchOutcome.err 503) →
        unmonitor (pre ++ FetchOutcome.ok :: suf) 5 = UnmonitorResult.ok) ∧
      (∀ suf : List FetchOutcome,
        unmonitor (List.replicate 6 (FetchOutcome.err 503) ++ suf) 5 =
          UnmonitorResult.httpError 503) ∧
      unmonitor [FetchOutcome.err 503, FetchOutcome.err 503, FetchOutcome.err 503,
        FetchOutcome.err 503, FetchOutcome.ok] 5 = UnmonitorResult.ok := by
  refine ⟨fun pre suf hlen h503 => unmonitor_all_503_then_ok pre suf 5 hlen h503,
    fun suf => rfl, by decide⟩

/-- Witness for C7's theorem: four 503s then a success, applied concretely. -/
theorem unmonitor_retry_budget_witness :
    unmonitor ([FetchOutcome.err 503, FetchOutcome.err 503, FetchOutcome.err 503,
      FetchOutcome.err 503] ++ FetchOutcome.ok :: []) 5 = UnmonitorResult.ok :=
  unmonitor_retry_budget.1
    [FetchOutcome.err 503, FetchOutcome.err 503, FetchOutcome.err 503,
      FetchOutcome.err 503] [] (by decide) (by decide)

/-! ### Theorems about `add_routing` (claim C3) -/

theorem add_routing_loop_replicate (app ip : String) (port : Nat) (k : Nat) :
    add_routing_loop app ip port (List.replicate k AccResult.notReady) =
      (List.replicate k [RoutingEvent.register app ip port,
        RoutingEvent.sleep ROUTING_RETRY_INTERVAL]).flatten := by
  induction k with
  | zero => rfl
  | succ n ih => simp [List.replicate_succ, add_routing_loop, ih]

theorem add_routing_loop_replicate_then_other (app ip : String) (port : Nat)
    (k : Nat) (x : String) (rest : List AccResult) :
    add_routing_loop app ip port
        (List.replicate k AccResult.notReady ++ AccResult.other x :: rest) =
      (List.replicate k [RoutingEvent.register app ip port,
        RoutingEvent.sleep ROUTING_RETRY_INTERVAL]).flatten
        ++ [RoutingEvent.register app ip port] := by
  induction k with
  | zero => rfl
  | succ n ih => simp [List.replicate_succ, add_routing_loop, ih]

/-- C3: the routing controller is called only after the health probe returned
true (a non-empty event trace implies probe success, and a failed probe
produces no events at all); while the controller answers `NOT_READY` the
registration is retried indefinitely — one `register(app, private_ip, port)`
per answer, spaced by 5-second sleeps, the loop still running after any finite
all-`NOT_READY` prefix — and the first answer that is not `NOT_READY` ends the
task. -/
theorem add_routing_register_after_probe (app ip : String) (port : Nat)
    (probe : List ProbeOutcome) (acc : List AccResult) :
    (wait_on_app probe = false → add_routing app ip port probe acc = []) ∧
      (wait_on_app probe = true → ∀ (k : Nat) (x : String) (rest : List AccResult),
        acc = List.replicate k AccResult.notReady ++ AccResult.other x :: rest →
        add_routing app ip port probe acc =
          (List.replicate k [RoutingEvent.register app ip port,
            RoutingEvent.sleep ROUTING_RETRY_INTERVAL]).flatten
            ++ [RoutingEvent.register app ip port]) ∧
      (wait_on_app probe = true → ∀ k : Nat,
        add_routing app ip port probe (List.replicate k AccResult.notReady) =
          (List.replicate k [RoutingEvent.register app ip port,
            RoutingEvent.sleep ROUTING_RETRY_INTERVAL]).flatten) ∧
      (add_routing app ip port probe acc ≠ [] → wait_on_app probe = true) := by
  refine ⟨fun h => by simp [add_routing, h],
    fun h k x rest hacc => by
      subst hacc
      simp [add_routing, h, add_routing_loop_replicate_then_other],
    fun h k => by simp [add_routing, h, add_routing_loop_replicate],
    fun hne => ?_⟩
  by_contra hfalse
  rw [Bool.not_eq_true] at hfalse
  exact hne (by simp [add_routing, hfalse])

/-- Witness for C3's theorem: one `NOT_READY` then a success, after a probe
that answered on the first attempt. -/
theorem add_routing_register_after_probe_witness :
    add_routing "guestbook" "10.0.0.1" 8080 [ProbeOutcome.response 200]
        [AccResult.notReady, AccResult.other "ok"] =
      [RoutingEvent.register "guestbook" "10.0.0.1" 8080,
        RoutingEvent.sleep ROUTING_RETRY_INTERVAL,
        RoutingEvent.register "guestbook" "10.0.0.1" 8080] := by
  have h := (add_routing_register_after_probe "guestbook" "10.0.0.1" 8080
    [ProbeOutcome.response 200] [AccResult.notReady, AccResult.other "ok"]).2.1
    (by decide) 1 "ok" [] (by decide)
  simpa using h

/-! ### Theorems about `clean_old_sources` (claim C5) -/

theorem mem_projects_revision_keys (pm : ProjectsManager) (x : String) :
    x ∈ projects_revision_keys pm ↔
      ∃ p ∈ pm, ∃ s ∈ p.2, ∃ v ∈ s.2, x = revision_key p.1 s.1 v.1 v.2 := by
  simp only [projects_revision_keys, List.mem_flatMap, List.mem_map]
  constructor
  · rintro ⟨p, hp, s, hs, v, hv, rfl⟩
    exact ⟨p, hp, s, hs, v, hv, rfl⟩
  · rintro ⟨p, hp, s, hs, v, hv, rfl⟩
    exact ⟨p, hp, s, hs, v, hv, rfl⟩

/-- C5: the active set computed by `clean_old_sources` — the set it passes to
`clean_old_revisions` — consists exactly of (a) every monit entry name that
starts with `app___`, with that prefix and the trailing `-<port>` segment
stripped, and (b) every revision key drawn from the projects manager walk;
entries not starting with `app___` contribute nothing; consequently the set
is a superset of the stripped name of every live `app___` entry and of every
projects-manager revision key. -/
theorem clean_old_sources_active_set (monit_entries : List String)
    (pm : ProjectsManager) :
    (∀ x, x ∈ clean_old_sources monit_entries pm ↔
        ((∃ e ∈ monit_entries, str_startswith e MONIT_INSTANCE_PREFIX = true ∧
            x = strip_monit_entry e) ∨
          ∃ p ∈ pm, ∃ s ∈ p.2, ∃ v ∈ s.2, x = revision_key p.1 s.1 v.1 v.2)) ∧
      (∀ e, str_startswith e MONIT_INSTANCE_PREFIX = false →
        clean_old_sources (e :: monit_entries) pm =
          clean_old_sources monit_entries pm) ∧
      (∀ e ∈ monit_entries, str_startswith e MONIT_INSTANCE_PREFIX = true →
        strip_monit_entry e ∈ clean_old_sources monit_entries pm) ∧
      (∀ p ∈ pm, ∀ s ∈ p.2, ∀ v ∈ s.2,
        revision_key p.1 s.1 v.1 v.2 ∈ clean_old_sources monit_entries pm) := by
  have hmem : ∀ x, x ∈ clean_old_sources monit_entries pm ↔
      ((∃ e ∈ monit_entries, str_startswith e MONIT_INSTANCE_PREFIX = true ∧
          x = strip_monit_entry e) ∨
        ∃ p ∈ pm, ∃ s ∈ p.2, ∃ v ∈ s.2, x = revision_key p.1 s.1 v.1 v.2) := by
    intro x
    rw [clean_old_sources, clean_old_sources_active, List.mem_append,
      mem_projects_revision_keys]
    constructor
    · rintro (hmap | hkeys)
      · obtain ⟨e, he, rfl⟩ := List.mem_map.mp hmap
        obtain ⟨he', hpre⟩ := List.mem_filter.mp he
        exact Or.inl ⟨e, he', hpre, rfl⟩
      · exact Or.inr hkeys
    · rintro (⟨e, he, hpre, rfl⟩ | hkeys)
      · exact Or.inl (List.mem_map.mpr ⟨e, List.mem_filter.mpr ⟨he, hpre⟩, rfl⟩)
      · exact Or.inr hkeys
  refine ⟨hmem, fun e hpre => ?_, fun e he hpre => ?_, fun p hp s hs v hv => ?_⟩
  · simp [clean_old_sources, clean_old_sources_active, List.filter_cons, hpre]
  · exact (hmem _).mpr (Or.inl ⟨e, he, hpre, rfl⟩)
  · exact (hmem _).mpr (Or.inr ⟨p, hp, s, hs, v, hv, rfl⟩)

/-- Witness for C5's theorem at the spec's GC scenario: supervisor lists
`["app___p-s-v-1-8080", "other"]` and the projects manager exposes revision
`2` of `p/s/v`; the stripped entry is in the passed set. -/
theorem clean_old_sources_active_set_witness :
    strip_monit_entry "app___p-s-v-1-8080" ∈
      clean_old_sources ["app___p-s-v-1-8080", "other"] [("p", [("s", [("v", 2)])])] :=
  (clean_old_sources_active_set ["app___p-s-v-1-8080", "other"]
    [("p", [("s", [("v", 2)])])]).2.2.1 "app___p-s-v-1-8080" (by decide) (by decide)

/-! ### Theorems about the Java memory pre-check (claim C4) -/

/-- Whether a start event is a supervisor config-file write. -/
def is_config_write : StartEvent → Bool
  | .configWrite _ _ _ _ => true
  | _ => false

/-- Whether a start event is a supervisor start call. -/
def is_monit_start : StartEvent → Bool
  | .monitStart _ => true
  | _ => false

/-- C4: for a Java start whose effective memory allowance makes
`max_heap = max_memory − 250` non-positive, `start_app` fails with
`BadConfiguration` and its event trace is exactly the preceding
`ensure_source` call — in particular no supervisor config file has been
written and no supervisor start call has been made. -/
theorem start_app_java_memory_rejected (opts : Options) (project_id : String)
    (port : Nat) (service_id version_id : String) (evs : List (String × String))
    (vd : VersionDetails) (runtime_params instance_classes : List (String × Nat))
    (fwi : String → String) (monitStartOk logrotateWriteOk : Bool)
    (hvalid : is_app_name_valid project_id = true)
    (hjava : vd.runtime = Runtime.java)
    (hmem : effective_max_memory runtime_params instance_classes vd ≤ 250) :
    (start_app opts project_id ⟨some port, some service_id, some version_id, some evs⟩
        (some vd) runtime_params instance_classes fwi monitStartOk logrotateWriteOk).1 =
      StartResult.badConfiguration
        "Memory for Java applications must be greater than 250MB" ∧
    (start_app opts project_id ⟨some port, some service_id, some version_id, some evs⟩
        (some vd) runtime_params instance_classes fwi monitStartOk logrotateWriteOk).2 =
      [StartEvent.ensureSource
        (revision_key project_id service_id version_id vd.revision) vd.sourceUrl] ∧
    ((start_app opts project_id ⟨some port, some service_id, some version_id, some evs⟩
        (some vd) runtime_params instance_classes fwi monitStartOk logrotateWriteOk).2.any
      is_config_write = false ∧
     (start_app opts project_id ⟨some port, some service_id, some version_id, some evs⟩
        (some vd) runtime_params instance_classes fwi monitStartOk logrotateWriteOk).2.any
      is_monit_start = false) := by
  obtain ⟨rt, rev, url, ic⟩ := vd
  simp only [VersionDetails.runtime] at hjava
  subst hjava
  have hle : (effective_max_memory runtime_params instance_classes
      ⟨Runtime.java, rev, url, ic⟩ : Int) - 250 ≤ 0 := by
    have : (effective_max_memory runtime_params instance_classes
        ⟨Runtime.java, rev, url, ic⟩ : Int) ≤ 250 := by exact_mod_cast hmem
    omega
  simp [start_app, hvalid, hle, is_config_write, is_monit_start]

/-- Witness for C4's theorem: a Java version with `max_memory = 128`. -/
theorem start_app_java_memory_rejected_witness :
    (start_app ⟨"10.0.0.1", "lb", "sys", "db", "tq"⟩ "javaapp"
        ⟨some 8080, some "default", some "v1", some []⟩
        (some ⟨Runtime.java, 1, "gs://src.tar.gz", none⟩)
        [("max_memory", 128)] [] (fun _ => "") true true).1 =
      StartResult.badConfiguration
        "Memory for Java applications must be greater than 250MB" :=
  (start_app_java_memory_rejected ⟨"10.0.0.1", "lb", "sys", "db", "tq"⟩ "javaapp"
    8080 "default" "v1" [] ⟨Runtime.java, 1, "gs://src.tar.gz", none⟩
    [("max_memory", 128)] [] (fun _ => "") true true
    (by decide) rfl (by decide)).1

/-! ### Theorems about the python27/go/php start command (claim C6) -/

/-- The argument sequence asserted by the spec for python27/go/php starts, in
the spec's stated order: port, admin_port, login_server, the four flags
`--skip_sdk_update_check --require_indexes --enable_sendmail
--automatic_restart=no`, then nginx_host, xmpp_path, php_executable_path,
uaserver_path, datastore_path, source directory, host, admin_host, pidfile.
Tokens are spelled in the granularity the source's `cmd` list uses. -/
def spec_claimed_python27_args (opts : Options) (login_ip : String) (port : Nat)
    (pidfile rev : String) : List String :=
  [ "--port " ++ toString port,
    "--admin_port " ++ toString (port + 10000),
    "--login_server " ++ login_ip,
    "--skip_sdk_update_check",
    "--require_indexes",
    "--enable_sendmail",
    "--automatic_restart=no",
    "--nginx_host " ++ login_ip,
    "--xmpp_path " ++ login_ip,
    "--php_executable_path=" ++ PHP_CGI_LOCATION,
    "--uaserver_path " ++ opts.db_proxy ++ ":" ++ toString UA_SERVER_PORT,
    "--datastore_path " ++ opts.db_proxy ++ ":" ++ toString DB_SERVER_PORT,
    UNPACK_ROOT ++ "/" ++ rev ++ "/app",
    "--host " ++ opts.private_ip,
    "--admin_host " ++ opts.private_ip,
    pidfile ]

/-- C6 (counterexample): at a concrete python27 start, the spec's claimed
argument order is not a subsequence of the built command's tokens — the
source spells the restart option as the two tokens `--automatic_restart` and
`no` near the end of the command, so the claimed token
`--automatic_restart=no` never occurs. -/
theorem create_python27_start_cmd_spec_order_counterexample :
    ¬ (spec_claimed_python27_args ⟨"10.0.0.1", "lb", "sys", "db", "tq"⟩ "lb" 8080
        "/var/run/appscale/app___guestbook-8080.pid" "guestbook_default_v1_1").Sublist
      (create_python27_start_cmd_args ⟨"10.0.0.1", "lb", "sys", "db", "tq"⟩
        "guestbook" "lb" 8080 "/var/run/appscale/app___guestbook-8080.pid"
        "guestbook_default_v1_1") := by
  intro h
  have hmem : "--automatic_restart=no" ∈
      spec_claimed_python27_args ⟨"10.0.0.1", "lb", "sys", "db", "tq"⟩ "lb" 8080
        "/var/run/appscale/app___guestbook-8080.pid" "guestbook_default_v1_1" := by
    decide
  have hnot : "--automatic_restart=no" ∉
      create_python27_start_cmd_args ⟨"10.0.0.1", "lb", "sys", "db", "tq"⟩
        "guestbook" "lb" 8080 "/var/run/appscale/app___guestbook-8080.pid"
        "guestbook_default_v1_1" := by
    decide
  exact hnot (h.subset hmem)

/-- C6 (amended): the built command consists of the fixed arguments in the
source's order — launcher, port, admin_port = port + 10000, login_server,
`--skip_sdk_update_check`, nginx_host, `--require_indexes`,
`--enable_sendmail`, xmpp_path, php_executable_path, uaserver_path,
datastore_path, source directory, host, admin_host, then the token pairs
`--automatic_restart no` and `--pidfile <pidfile>` — with `--trusted`
appended exactly when the project is in `TRUSTED_APPS`; the command string is
these tokens joined by single spaces. -/
theorem create_python27_start_cmd_token_order (opts : Options)
    (app_name login_ip : String) (port : Nat) (pidfile rev : String) :
    create_python27_start_cmd_args opts app_name login_ip port pidfile rev =
      [ "/usr/bin/python2",
        APPSCALE_HOME ++ "/AppServer/dev_appserver.py",
        "--port " ++ toString port,
        "--admin_port " ++ toString (port + 10000),
        "--login_server " ++ login_ip,
        "--skip_sdk_update_check",
        "--nginx_host " ++ login_ip,
        "--require_indexes",
        "--enable_sendmail",
        "--xmpp_path " ++ login_ip,
        "--php_executable_path=" ++ PHP_CGI_LOCATION,
        "--uaserver_path " ++ opts.db_proxy ++ ":" ++ toString UA_SERVER_PORT,
        "--datastore_path " ++ opts.db_proxy ++ ":" ++ toString DB_SERVER_PORT,
        UNPACK_ROOT ++ "/" ++ rev ++ "/app",
        "--host " ++ opts.private_ip,
        "--admin_host " ++ opts.private_ip,
        "--automatic_restart", "no",
        "--pidfile", pidfile ]
        ++ (if app_name ∈ TRUSTED_APPS then [TRUSTED_FLAG] else []) ∧
    create_python27_start_cmd opts app_name login_ip port pidfile rev =
      String.intercalate " "
        (create_python27_start_cmd_args opts app_name login_ip port pidfile rev) := by
  constructor
  · simp only [create_python27_start_cmd_args]
    split <;> simp
  · rfl

/-! ### Theorems about single-instance stop (claim C1) -/

/-- Whether a stop event is a `clean_old_sources` (RevisionGC) run. -/
def is_gc_run : StopEvent → Bool
  | .gcRun _ => true
  | _ => false

/-- C1 (counterexample): a single-instance stop of `(p, 8080)` that returns
successfully leaves the logrotate config for `p` in place (only the stop-all
path calls `remove_logrotate`); and on the 404 path — unmonitor reports the
process unknown — the stop returns success immediately, leaving even the
supervisor config file present and never invoking RevisionGC. -/
theorem stop_app_instance_counterexample :
    ((stop_app_instance "p" 8080 (some 1234) [FetchOutcome.ok] [] []
        ⟨[monit_config_path "app___p-8080"], [logrotate_path "p"]⟩).result =
      StopResult.ok ∧
     logrotate_path "p" ∈
      (stop_app_instance "p" 8080 (some 1234) [FetchOutcome.ok] [] []
        ⟨[monit_config_path "app___p-8080"], [logrotate_path "p"]⟩).state.logrotateConfigs) ∧
    ((stop_app_instance "p" 8080 (some 1234) [FetchOutcome.err 404] [] []
        ⟨[monit_config_path "app___p-8080"], [logrotate_path "p"]⟩).result =
      StopResult.ok ∧
     monit_config_path "app___p-8080" ∈
      (stop_app_instance "p" 8080 (some 1234) [FetchOutcome.err 404] [] []
        ⟨[monit_config_path "app___p-8080"], [logrotate_path "p"]⟩).state.monitConfigs ∧
     (stop_app_instance "p" 8080 (some 1234) [FetchOutcome.err 404] [] []
        ⟨[monit_config_path "app___p-8080"], [logrotate_path "p"]⟩).events.any
      is_gc_run = false) := by
  decide

/-- C1 (amended): after a single-instance stop of `(P, Q)` that returns
successfully through a successful unmonitor, the supervisor config file for
`app___P-Q` is absent (its paths being distinct on disk) and RevisionGC has
been invoked; the logrotate config for `P` is not touched by this operation;
and on the path where unmonitor returns 404 the stop returns success at once
with no config removal, no GC and no further effect. -/
theorem stop_app_instance_removes_config_and_runs_gc (app : String)
    (port pid : Nat) (fo : List FetchOutcome) (entries : List String)
    (pm : ProjectsManager) (st : NodeState)
    (hvalid : is_app_name_valid app = true)
    (hnodup : st.monitConfigs.Nodup) :
    (unmonitor fo 5 = UnmonitorResult.ok →
      (stop_app_instance app port (some pid) fo entries pm st).result =
        StopResult.ok ∧
      monit_config_path (MONIT_INSTANCE_PREFIX ++ app ++ "-" ++ toString port) ∉
        (stop_app_instance app port (some pid) fo entries pm st).state.monitConfigs ∧
      (stop_app_instance app port (some pid) fo entries pm st).state.logrotateConfigs =
        st.logrotateConfigs ∧
      StopEvent.gcRun (clean_old_sources entries pm) ∈
        (stop_app_instance app port (some pid) fo entries pm st).events) ∧
    (unmonitor fo 5 = UnmonitorResult.processNotFound →
      (stop_app_instance app port (some pid) fo entries pm st).result =
        StopResult.ok ∧
      (stop_app_instance app port (some pid) fo entries pm st).state = st ∧
      (stop_app_instance app port (some pid) fo entries pm st).events =
        [StopEvent.unmonitorCall
          (MONIT_INSTANCE_PREFIX ++ app ++ "-" ++ toString port)]) := by
  constructor
  · intro hok
    simp [stop_app_instance, hvalid, hok, hnodup.not_mem_erase]
  · intro h404
    simp [stop_app_instance, hvalid, h404]

/-- Witness for C1's amended theorem: a concrete successful stop. -/
theorem stop_app_instance_removes_config_and_runs_gc_witness :
    monit_config_path (MONIT_INSTANCE_PREFIX ++ "p" ++ "-" ++ toString 8080) ∉
      (stop_app_instance "p" 8080 (some 1234) [FetchOutcome.ok] [] []
        ⟨[monit_config_path "app___p-8080"],
          [logrotate_path "p"]⟩).state.monitConfigs :=
  ((stop_app_instance_removes_config_and_runs_gc "p" 8080 1234 [FetchOutcome.ok]
    [] [] ⟨[monit_config_path "app___p-8080"], [logrotate_path "p"]⟩
    (by decide) (by decide)).1 (by decide)).2.1

/-! ### Theorems about logrotate failure handling (claim C8) -/

/-- C8 (code_bug evidence): at a python27 start on which every step succeeds
except the logrotate config write, `start_app` propagates the `IOError`
(`setup_logrotate` wraps its `open(...).write` in no `try`), so the HTTP
result becomes 500 — even though the supervisor start already succeeded; the
identical start with a succeeding write returns 200. This contradicts the
claim and the source's own intent: `setup_logrotate`'s docstring promises
`False` on failure and `start_app` checks `if not setup_logrotate(...)` to
merely log, a check that is unreachable. (The stop-side `remove_logrotate`
does catch `OSError`, so only the write path diverges.) -/
theorem start_app_logrotate_write_failure_changes_http_result :
    (app_handler_post ⟨"10.0.0.1", "lb", "sys", "db", "tq"⟩ "guestbook"
        ⟨some 8080, some "default", some "v1", some []⟩
        (some ⟨Runtime.python27, 1, "gs://src.tar.gz", none⟩) [] []
        (fun _ => "") true false).1 = INTERNAL_ERROR ∧
    (app_handler_post ⟨"10.0.0.1", "lb", "sys", "db", "tq"⟩ "guestbook"
        ⟨some 8080, some "default", some "v1", some []⟩
        (some ⟨Runtime.python27, 1, "gs://src.tar.gz", none⟩) [] []
        (fun _ => "") true false).2.any is_monit_start = true ∧
    (app_handler_post ⟨"10.0.0.1", "lb", "sys", "db", "tq"⟩ "guestbook"
        ⟨some 8080, some "default", some "v1", some []⟩
        (some ⟨Runtime.python27, 1, "gs://src.tar.gz", none⟩) [] []
        (fun _ => "") true true).1 = HTTP_SUCCESS := by
  decide

/-! ### Theorems about project-ID validation on the stop paths (claim C10) -/

/-- C10: for every project identifier rejected by the `[a-z0-9-]+`
validation, both `stop_app_instance` and `stop_app` raise
`BadConfigurationException` with no state change and no side effect at all —
in particular before any supervisor interaction — and both HTTP handlers
surface it as 400. -/
theorem stop_operations_reject_invalid_project (name : String)
    (hinvalid : is_app_name_valid name = false) :
    ∀ (port : Nat) (pidRead : Option Nat) (fo : List FetchOutcome)
      (entries : List String) (pm : ProjectsManager) (st : NodeState)
      (monitStopOk : Bool),
      stop_app_instance name port pidRead fo entries pm st =
        ⟨StopResult.badConfiguration, st, []⟩ ∧
      stop_app name monitStopOk entries pm st =
        ⟨StopResult.badConfiguration, st, []⟩ ∧
      (instance_handler_delete name port pidRead fo entries pm st).1 =
        BAD_REQUEST ∧
      (app_handler_delete name monitStopOk entries pm st).1 = BAD_REQUEST := by
  intro port pidRead fo entries pm st monitStopOk
  refine ⟨?_, ?_, ?_, ?_⟩ <;>
    simp [stop_app_instance, stop_app, instance_handler_delete,
      app_handler_delete, hinvalid]

/-- Witness for C10's theorem: the project ID `Invalid_Project!`. -/
theorem stop_operations_reject_invalid_project_witness :
    (instance_handler_delete "Invalid_Project!" 8080 (some 1) [] [] []
      ⟨[], []⟩).1 = BAD_REQUEST :=
  (stop_operations_reject_invalid_project "Invalid_Project!" (by decide)
    8080 (some 1) [] [] [] ⟨[], []⟩ true).2.2.1

/-! ### Theorems about Java env-var extraction (claim C9) -/

/-- Read a key out of a possibly-failed environment computation. -/
def env_result_get (r : Except String Env) (k : String) : Option String :=
  match r with
  | .ok m => m k
  | .error _ => none

/-- The `(name, value)` pair of an `env-var` element (attributes default to
the empty string; `extract_env_vars_from_xml` only succeeds when both are
present). -/
def xml_env_var_entry (ev : XmlElement) : String × String :=
  ((ev.attrib.lookup "name").getD "", (ev.attrib.lookup "value").getD "")

/-- All `(name, value)` entries of the `env-variables` sections of a parsed
`appengine-web.xml`, in document order. -/
def env_var_entries (root : XmlElement) : List (String × String) :=
  root.children.flatMap fun child =>
    if str_endswith child.tag "env-variables" then
      child.children.map xml_env_var_entry
    else []

/-- Left-biased choice on optional values. -/
def opt_or (a b : Option String) : Option String :=
  match a with
  | some v => some v
  | none => b

/-- The value of the last entry carrying the given name — Python dict
assignment semantics, where later entries override earlier ones. -/
def lookup_last (l : List (String × String)) (k : String) : Option String :=
  l.foldl (fun acc kv => if kv.1 = k then some kv.2 else acc) none

theorem opt_or_none_right (a : Option String) : opt_or a none = a := by
  cases a <;> rfl

theorem opt_or_assoc (a b c : Option String) :
    opt_or (opt_or a b) c = opt_or a (opt_or b c) := by
  cases a <;> rfl

theorem lookup_last_foldl_acc (l : List (String × String)) (k : String)
    (acc : Option String) :
    l.foldl (fun a kv => if kv.1 = k then some kv.2 else a) acc =
      opt_or (lookup_last l k) acc := by
  induction l generalizing acc with
  | nil => rfl
  | cons kv l ih =>
      show l.foldl _ (if kv.1 = k then some kv.2 else acc) = _
      rw [ih]
      have h2 : lookup_last (kv :: l) k =
          opt_or (lookup_last l k) (if kv.1 = k then some kv.2 else none) := by
        show l.foldl _ (if kv.1 = k then some kv.2 else none) = _
        rw [ih]
      rw [h2, opt_or_assoc]
      by_cases h : kv.1 = k <;> simp [h, opt_or]

theorem lookup_last_cons (e : String × String) (l : List (String × String))
    (k : String) :
    lookup_last (e :: l) k =
      opt_or (lookup_last l k) (if e.1 = k then some e.2 else none) := by
  show l.foldl _ (if e.1 = k then some e.2 else none) = _
  rw [lookup_last_foldl_acc]

theorem lookup_last_append (l1 l2 : List (String × String)) (k : String) :
    lookup_last (l1 ++ l2) k = opt_or (lookup_last l2 k) (lookup_last l1 k) := by
  show (l1 ++ l2).foldl _ none = _
  rw [List.foldl_append]
  exact lookup_last_foldl_acc l2 k _

theorem xml_env_var_fold_ok (evs : List XmlElement) (m0 m : Env)
    (h : evs.foldlM xml_env_var_step m0 = Except.ok m) (k : String) :
    m k = opt_or (lookup_last (evs.map xml_env_var_entry) k) (m0 k) := by
  induction evs generalizing m0 with
  | nil =>
      simp only [List.foldlM_nil] at h
      cases h
      simp [lookup_last, opt_or]
  | cons ev evs ih =>
      rw [List.foldlM_cons] at h
      cases hn : ev.attrib.lookup "name" with
      | none => rw [xml_env_var_step] at h; rw [hn] at h; cases h
      | some n =>
        cases hv : ev.attrib.lookup "value" with
        | none =>
            rw [xml_env_var_step, hn, hv] at h
            cases h
        | some v =>
            have hstep : xml_env_var_step m0 ev = Except.ok (env_set m0 n v) := by
              rw [xml_env_var_step, hn, hv]
            rw [hstep] at h
            have h' : evs.foldlM xml_env_var_step (env_set m0 n v) =
                Except.ok m := h
            have hent : xml_env_var_entry ev = (n, v) := by
              rw [xml_env_var_entry, hn, hv]; rfl
            rw [List.map_cons, hent, lookup_last_cons, opt_or_assoc,
              ih _ h']
            by_cases hk : k = n
            · subst hk; simp [env_set, opt_or]
            · have : ¬ n = k := fun hnk => hk hnk.symm
              simp [env_set, hk, this, opt_or]

theorem xml_child_fold_ok (cs : List XmlElement) (m0 m : Env)
    (h : cs.foldlM xml_child_step m0 = Except.ok m) (k : String) :
    m k = opt_or (lookup_last (cs.flatMap fun child =>
        if str_endswith child.tag "env-variables" then
          child.children.map xml_env_var_entry
        else []) k) (m0 k) := by
  induction cs generalizing m0 with
  | nil =>
      simp only [List.foldlM_nil] at h
      cases h
      simp [lookup_last, opt_or]
  | cons c cs ih =>
      rw [List.foldlM_cons] at h
      by_cases hc : str_endswith c.tag "env-variables"
      · have hstep : xml_child_step m0 c = c.children.foldlM xml_env_var_step m0 := by
          rw [xml_child_step, if_pos hc]
        rw [hstep] at h
        cases hinner : c.children.foldlM xml_env_var_step m0 with
        | error e => rw [hinner] at h; cases h
        | ok m1 =>
            rw [hinner] at h
            have h' : cs.foldlM xml_child_step m1 = Except.ok m := h
            rw [List.flatMap_cons, if_pos hc, lookup_last_append, opt_or_assoc,
              ih _ h', xml_env_var_fold_ok c.children m0 m1 hinner k]
      · have hstep : xml_child_step m0 c = Except.ok m0 := by
          rw [xml_child_step, if_neg hc]
        rw [hstep] at h
        have h' : cs.foldlM xml_child_step m0 = Except.ok m := h
        rw [List.flatMap_cons, if_neg hc, List.nil_append, ih _ h']

/-- Fixture: an `appengine-web.xml` whose `env-variables` section defines the
custom variable `GCS_HOST=custom`. -/
def gcsXml : XmlElement :=
  .mk "appengine-web-app" []
    [.mk "env-variables" []
      [.mk "env-var" [("name", "GCS_HOST"), ("value", "custom")] []]]

/-- Fixture: an `env-variables` section with two entries for the same name. -/
def dupXml : XmlElement :=
  .mk "appengine-web-app" []
    [.mk "env-variables" []
      [.mk "env-var" [("name", "A"), ("value", "v1")] [],
       .mk "env-var" [("name", "A"), ("value", "v2")] []]]

/-- C9 (counterexample): two entries whose binding does not survive into
`create_java_app_env`'s result: a custom `GCS_HOST=custom` entry is
overwritten by the URL synthesised from the deployment's GCS config, and the
first of two entries named `A` is shadowed by the later one (Python dict
assignment). -/
theorem create_java_app_env_counterexample :
    (("GCS_HOST", "custom") ∈ env_var_entries gcsXml ∧
      env_result_get (create_java_app_env gcsXml (some [("host", "gcs.example")]))
        "GCS_HOST" ≠ some "custom") ∧
    (("A", "v1") ∈ env_var_entries dupXml ∧
      env_result_get (create_java_app_env dupXml none) "A" ≠ some "v1") := by
  decide

/-- C9 (amended): when extraction succeeds, the extracted dict maps each name
to the value of the *last* `env-var` entry carrying it, and every such
binding `K = V` appears in `create_java_app_env`'s result unless
`K = GCS_HOST` while the deployment's GCS config supplies a host (in which
case the synthesised URL overrides it). -/
theorem create_java_app_env_includes_env_vars (root : XmlElement)
    (gcs_fetch : Option (List (String × String))) (m : Env) (K V : String)
    (hex : extract_env_vars_from_xml root = Except.ok m) :
    m K = lookup_last (env_var_entries root) K ∧
    (m K = some V →
      (java_gcs_config gcs_fetch "host" = none ∨ K ≠ "GCS_HOST") →
      env_result_get (create_java_app_env root gcs_fetch) K = some V) := by
  constructor
  · have := xml_child_fold_ok root.children _ m hex K
    rw [env_var_entries]
    rw [this]
    exact opt_or_none_right _
  · intro hmK hcond
    rw [create_java_app_env]
    rw [hex]
    show env_result_get
      (match java_gcs_config gcs_fetch "host" with
        | some host => pure (env_set (fun k =>
            match m k with
            | some v => some v
            | none => if k = "APPSCALE_HOME" then some APPSCALE_HOME else none)
            "GCS_HOST" ((java_gcs_config gcs_fetch "scheme").getD "" ++ "://"
              ++ host ++ ":" ++ (java_gcs_config gcs_fetch "port").getD ""))
        | none => pure (fun k =>
            match m k with
            | some v => some v
            | none => if k = "APPSCALE_HOME" then some APPSCALE_HOME else none)) K
      = some V
    cases hhost : java_gcs_config gcs_fetch "host" with
    | none =>
        show (fun k =>
          match m k with
          | some v => some v
          | none => if k = "APPSCALE_HOME" then some APPSCALE_HOME else none) K
          = some V
        simp [hmK]
    | some host =>
        have hK : K ≠ "GCS_HOST" := by
          rcases hcond with hnone | hne
          · rw [hhost] at hnone; cases hnone
          · exact hne
        show env_set (fun k =>
            match m k with
            | some v => some v
            | none => if k = "APPSCALE_HOME" then some APPSCALE_HOME else none)
          "GCS_HOST" _ K = some V
        rw [env_set, if_neg hK]
        simp [hmK]

/-- Witness for C9's amended theorem: a single `FOO=bar` entry and an
inaccessible GCS config. -/
theorem create_java_app_env_includes_env_vars_witness :
    env_result_get (create_java_app_env
      (.mk "appengine-web-app" []
        [.mk "env-variables" []
          [.mk "env-var" [("name", "FOO"), ("value", "bar")] []]]) none)
      "FOO" = some "bar" :=
  (create_java_app_env_includes_env_vars
    (.mk "appengine-web-app" []
      [.mk "env-variables" []
        [.mk "env-var" [("name", "FOO"), ("value", "bar")] []]]) none
    (env_set (fun _ => none) "FOO" "bar") "FOO" "bar" rfl).2 rfl (Or.inl rfl)

end AppManager
